import Mathlib

/-!
# Verification of the EdureTrieve text-extraction subsystem

Shallow embedding of `src/server/src/utils/textExtractor.js`.

The JavaScript module dispatches on a MIME type to five per-format
adapters (PDF, DOCX, TXT, PPTX, image OCR).  External capabilities
(`pdf-parse`, `mammoth`, `tesseract.js`, `pptx2json`, `fs`) are modelled
as environment records of functions returning `Except String α`: a
`.error msg` models the underlying call throwing an error whose
`.message` is `msg`, and `.ok` models normal completion.  Adapters that
can observably invoke a capability also return an invocation count so
that "the parser is never invoked" / "zero workers are created" style
properties are statable.

JavaScript `String.prototype.includes` is modelled by `strContains`
(case-sensitive substring test), and JS truthiness of `process.env.X`
(a value that is either `undefined` or a string, falsy exactly when
absent or empty) by `envTruthy` on `Option String`.
-/

/-- A byte buffer (`Buffer` in Node), modelled as its list of bytes. -/
abbrev Bytes := List Nat

/-- The dispatcher's `input` argument: a buffer or a file path. -/
inductive Input
  | buffer (b : Bytes)
  | path (p : String)
deriving DecidableEq, Repr

/-! ## Substring matching (JS `String.prototype.includes`) -/

/-- `leadsWith pat s`: `pat` is a prefix of `s` (on character lists). -/
def leadsWith : List Char → List Char → Bool
  | [], _ => true
  | _ :: _, [] => false
  | a :: as, b :: bs => a == b && leadsWith as bs

/-- `hasSub pat s`: `pat` occurs as a contiguous run inside `s`. -/
def hasSub (pat : List Char) : List Char → Bool
  | [] => leadsWith pat []
  | c :: rest => leadsWith pat (c :: rest) || hasSub pat rest

/-- JS `s.includes(pat)`: case-sensitive substring containment. -/
def strContains (s pat : String) : Bool :=
  hasSub pat.toList s.toList

/-! ## PDF adapter (`extractFromPDF`, lines 43–97)

The imported `pdf-parse` module is introspected at run time for one of
three capability shapes; each shape's behaviour, and `fs.readFileSync`,
are fields of `PdfEnv`. -/

/-- Value returned by the v1 / interop call shapes: an object carrying a
`text` field, a bare string, or anything else (which yields `''`). -/
inductive PdfCallResult
  | objWithText (text : String)
  | str (s : String)
  | other
deriving DecidableEq, Repr

/-- The runtime-observed `pdf-parse` module: which of the three shape
probes succeed, and the behaviour of each entry point. -/
structure PdfParseMod where
  /-- `typeof mod?.PDFParse === 'function'` -/
  hasPDFParseClass : Bool
  /-- `typeof mod?.default === 'function'` -/
  hasDefaultFn : Bool
  /-- `typeof mod === 'function'` -/
  modIsFunction : Bool
  /-- `new mod.PDFParse({ data: dataBuffer })` -/
  classConstruct : Bytes → Except String Unit
  /-- `parser.getText()`: throws, or yields a result whose optional
  `text` field is given (`none` for a nullish result / missing field) -/
  classGetText : Bytes → Except String (Option String)
  /-- `parser.destroy()` -/
  classDestroy : Except String Unit
  /-- `mod.default(dataBuffer)` -/
  defaultCall : Bytes → Except String PdfCallResult
  /-- `mod(dataBuffer)` -/
  modCall : Bytes → Except String PdfCallResult

/-- Environment of `extractFromPDF`: the module plus `fs.readFileSync`. -/
structure PdfEnv where
  mod : PdfParseMod
  fsRead : String → Except String Bytes

/-- `text = (result && typeof result === 'object' && 'text' in result)
? result.text : (typeof result === 'string' ? result : '')` -/
def pdfTextOf : PdfCallResult → String
  | .objWithText t => t
  | .str s => s
  | .other => ""

def pdfLargePlaceholder : String :=
  "[Large PDF uploaded - text extraction may be limited in serverless environment. Please try a smaller file or describe the content manually.]"

def pdfEmptyPlaceholder : String :=
  "[PDF processed - no text content found]"

def pdfTimeoutPlaceholder : String :=
  "[PDF uploaded - extraction timed out in serverless environment]"

def pdfMemoryPlaceholder : String :=
  "[PDF uploaded - extraction failed due to memory limits]"

def pdfPasswordPlaceholder : String :=
  "[PDF uploaded - file appears to be password-protected]"

/-- The `catch` block of `extractFromPDF` (lines 83–96): map a thrown
error's message to a fallback placeholder by `includes` checks. -/
def classifyPdfError (msg : String) : String :=
  if strContains msg "timeout" || strContains msg "time" then
    pdfTimeoutPlaceholder
  else if strContains msg "memory" || strContains msg "Memory" || strContains msg "heap" then
    pdfMemoryPlaceholder
  else if strContains msg "encrypted" || strContains msg "password" then
    pdfPasswordPlaceholder
  else
    "[PDF uploaded - extraction failed: " ++ msg ++ "]"

/-- `text || '[PDF processed - no text content found]'` (line 81). -/
def pdfFinish (text : String) : String :=
  if text = "" then pdfEmptyPlaceholder else text

/-- `extractFromPDF`.  Returns the adapter's outcome (always `.ok`: every
path of the JS function returns a string, since its own `catch` converts
each throw into a placeholder) together with the number of invocations
of the underlying `pdf-parse` capability. -/
def extractFromPDF (env : PdfEnv) (input : Input) : Except String String × Nat :=
  let bufE : Except String Bytes :=
    match input with
    | .buffer b => .ok b
    | .path p => env.fsRead p
  match bufE with
  | .error msg => (.ok (classifyPdfError msg), 0)
  | .ok dataBuffer =>
    -- `dataBuffer.length / (1024*1024) > 50` in exact float arithmetic
    -- is `dataBuffer.length > 50 * 1024 * 1024` for realistic lengths
    if 50 * 1024 * 1024 < dataBuffer.length then
      (.ok pdfLargePlaceholder, 0)
    else
      let m := env.mod
      if m.hasPDFParseClass then
        match m.classConstruct dataBuffer with
        | .error e => (.ok (classifyPdfError e), 1)
        | .ok _ =>
          match m.classGetText dataBuffer with
          | .error e => (.ok (classifyPdfError e), 1)
          | .ok r =>
            match m.classDestroy with
            | .error e => (.ok (classifyPdfError e), 1)
            | .ok _ => (.ok (pdfFinish (r.getD "")), 1)
      else if m.hasDefaultFn then
        match m.defaultCall dataBuffer with
        | .error e => (.ok (classifyPdfError e), 1)
        | .ok res => (.ok (pdfFinish (pdfTextOf res)), 1)
      else if m.modIsFunction then
        match m.modCall dataBuffer with
        | .error e => (.ok (classifyPdfError e), 1)
        | .ok res => (.ok (pdfFinish (pdfTextOf res)), 1)
      else
        -- line 77: `throw new Error('Unsupported pdf-parse export shape')`
        -- is raised inside the same `try`, so the adapter's own `catch`
        -- classifies it like any other failure.
        (.ok (classifyPdfError "Unsupported pdf-parse export shape"), 0)

/-! ## DOCX adapter (`extractFromDOCX`, lines 102–114) -/

structure DocxEnv where
  /-- `mammoth.extractRawText({ arrayBuffer: input })` then `.value` -/
  mammothBuffer : Bytes → Except String String
  /-- `mammoth.extractRawText({ path: input })` then `.value` -/
  mammothPath : String → Except String String

def extractFromDOCX (e : DocxEnv) (input : Input) : Except String String :=
  let r :=
    match input with
    | .buffer b => e.mammothBuffer b
    | .path p => e.mammothPath p
  match r with
  | .ok v => .ok v
  | .error m => .error ("DOCX extraction failed: " ++ m)

/-! ## TXT adapter (`extractFromTXT`, lines 119–129) -/

structure TxtEnv where
  /-- `input.toString('utf8')` — UTF-8 decoding never throws in Node -/
  utf8Decode : Bytes → String
  /-- `fs.readFileSync(input, 'utf8')` -/
  fsReadText : String → Except String String

def extractFromTXT (e : TxtEnv) (input : Input) : Except String String :=
  match input with
  | .buffer b => .ok (e.utf8Decode b)
  | .path p =>
    match e.fsReadText p with
    | .ok s => .ok s
    | .error m => .error ("TXT extraction failed: " ++ m)

/-! ## PPTX adapter (`extractFromPPTX`, lines 135–167) -/

structure Slide where
  /-- `slide?.text`; `none` for a nullish slide or missing field -/
  text : Option String
deriving DecidableEq, Repr

structure PptxDoc where
  /-- `pptx?.slides`; `none` for a nullish document or missing field -/
  slides : Option (List Slide)
deriving DecidableEq, Repr

structure PptxEnv where
  /-- `new PPTX2Json(input)` (constructor style) -/
  ctorCall : String → Except String PptxDoc
  /-- dynamic-import fallback: `(mod?.default ?? mod)(input)` -/
  fnCall : String → Except String PptxDoc

def pptxPlaceholder : String :=
  "[PPTX file uploaded - processing not available in serverless environment]"

/-- The slide-concatenation loop (lines 155–163):
`if (slide?.text) text += slide.text + '\n'`, i.e. only truthy
(non-empty) text fields are appended. -/
def pptxCollect (d : PptxDoc) : String :=
  match d.slides with
  | none => ""
  | some ss =>
    ss.foldl
      (fun acc s =>
        match s.text with
        | some t => if t = "" then acc else acc ++ t ++ "\n"
        | none => acc)
      ""

/-- `extractFromPPTX`.  Second component counts invocations of the
`pptx2json` parsing capability (constructor or function style). -/
def extractFromPPTX (e : PptxEnv) (input : Input) : Except String String × Nat :=
  match input with
  | .buffer _ => (.ok pptxPlaceholder, 0)
  | .path p =>
    match e.ctorCall p with
    | .ok d => (.ok (pptxCollect d).trim, 1)
    | .error _ =>
      match e.fnCall p with
      | .ok d => (.ok (pptxCollect d).trim, 2)
      | .error m => (.error ("PPTX extraction failed: " ++ m), 2)

/-! ## OCR adapter (`extractFromImage`, lines 172–225) -/

/-- JS truthiness of `process.env.X`: falsy iff absent or empty. -/
def envTruthy : Option String → Bool
  | none => false
  | some s => !(s == "")

structure OcrEnv where
  /-- `process.env.VERCEL` -/
  vercel : Option String
  /-- `process.env.LAMBDA_TASK_ROOT` -/
  lambdaTaskRoot : Option String
  /-- `process.env.USER` -/
  user : Option String
  /-- `createWorker('eng', 1, {...})` -/
  createWorker : Except String Unit
  /-- `worker.recognize(input)` then `result.data.text`; both the buffer
  and the path branch perform the same call -/
  recognize : Input → Except String String
  /-- `worker.terminate()`; its outcome is logged and discarded -/
  terminate : Except String Unit

/-- Line 178: `process.env.VERCEL || process.env.LAMBDA_TASK_ROOT ||
!process.env.USER`. -/
def isServerless (e : OcrEnv) : Bool :=
  envTruthy e.vercel || envTruthy e.lambdaTaskRoot || !envTruthy e.user

def ocrUnavailablePlaceholder : String :=
  "[Image uploaded - OCR processing not available in serverless environment. Please describe the image content manually.]"

def ocrEmptyPlaceholder : String :=
  "[Image processed - no text detected]"

def ocrWasmPlaceholder : String :=
  "[Image uploaded - OCR failed due to WebAssembly limitations in serverless environment]"

def ocrTimeoutPlaceholder : String :=
  "[Image uploaded - OCR timed out in serverless environment]"

def ocrMemoryPlaceholder : String :=
  "[Image uploaded - OCR failed due to memory limits]"

/-- The `catch` block of `extractFromImage` (lines 202–214). -/
def classifyOcrError (msg : String) : String :=
  if strContains msg "WebAssembly" || strContains msg "wasm" then
    ocrWasmPlaceholder
  else if strContains msg "timeout" || strContains msg "time" then
    ocrTimeoutPlaceholder
  else if strContains msg "memory" || strContains msg "Memory" then
    ocrMemoryPlaceholder
  else
    "[Image uploaded - OCR failed: " ++ msg ++ "]"

/-- `extractFromImage`.  Returns `(outcome, workersCreated,
terminateInvocations)`.  The outcome is always `.ok`: every path returns
a string.  The `finally` block (lines 215–224) invokes `terminate`
exactly once whenever `worker` was assigned, and swallows any error the
invocation itself throws, so the returned value never depends on
`e.terminate`. -/
def extractFromImage (e : OcrEnv) (input : Input) :
    Except String String × Nat × Nat :=
  if isServerless e then
    (.ok ocrUnavailablePlaceholder, 0, 0)
  else
    match e.createWorker with
    | .error m =>
      -- `worker` was never assigned: `finally` skips termination
      (.ok (classifyOcrError m), 0, 0)
    | .ok _ =>
      match e.recognize input with
      | .ok raw =>
        let extractedText := raw.trim
        (.ok (if extractedText = "" then ocrEmptyPlaceholder else extractedText), 1, 1)
      | .error m => (.ok (classifyOcrError m), 1, 1)

/-! ## Dispatcher (`extractTextFromFile`, lines 14–37) -/

def docxMime : String :=
  "application/vnd.openxmlformats-officedocument.wordprocessingml.document"

def pptxMime : String :=
  "application/vnd.openxmlformats-officedocument.presentationml.presentation"

/-- The full environment a dispatch may consult. -/
structure Sys where
  pdf : PdfEnv
  docx : DocxEnv
  txt : TxtEnv
  pptx : PptxEnv
  ocr : OcrEnv

/-- The recognized MIME set of the `switch` statement. -/
def recognizedMimes : List String :=
  ["application/pdf", docxMime, "text/plain", pptxMime,
   "image/jpeg", "image/png", "image/gif", "image/webp"]

/-- The `switch` body of `extractTextFromFile` (lines 16–32): route to
the matching adapter, or throw on an unrecognized MIME type. -/
def dispatchInner (sys : Sys) (input : Input) (mimeType : String) :
    Except String String :=
  if mimeType = "application/pdf" then
    (extractFromPDF sys.pdf input).1
  else if mimeType = docxMime then
    extractFromDOCX sys.docx input
  else if mimeType = "text/plain" then
    extractFromTXT sys.txt input
  else if mimeType = pptxMime then
    (extractFromPPTX sys.pptx input).1
  else if mimeType = "image/jpeg" ∨ mimeType = "image/png" ∨
      mimeType = "image/gif" ∨ mimeType = "image/webp" then
    (extractFromImage sys.ocr input).1
  else
    .error ("Unsupported MIME type: " ++ mimeType)

/-- `extractTextFromFile`: the `try`/`catch` wrapper (lines 15, 33–36)
rethrows any inner error with the outer prefix. -/
def extractTextFromFile (sys : Sys) (input : Input) (mimeType : String) :
    Except String String :=
  match dispatchInner sys input mimeType with
  | .ok t => .ok t
  | .error m => .error ("Failed to extract text: " ++ m)

/-! ## Sample environments (used by witnesses and counterexamples) -/

/-- A `pdf-parse` module matching none of the three capability shapes. -/
def pdfModNone : PdfParseMod :=
  ⟨false, false, false, fun _ => .ok (), fun _ => .ok none, .ok (),
   fun _ => .ok .other, fun _ => .ok .other⟩

def pdfEnvNone : PdfEnv := ⟨pdfModNone, fun _ => .ok []⟩

/-- A class-shaped module whose `getText` throws with message `TIMEOUT`. -/
def pdfEnvUpperTimeout : PdfEnv :=
  ⟨⟨true, false, false, fun _ => .ok (), fun _ => .error "TIMEOUT", .ok (),
    fun _ => .ok .other, fun _ => .ok .other⟩, fun _ => .ok []⟩

/-- A default-callable module whose call throws with message
`timeout of 5000ms exceeded`. -/
def pdfEnvLowerTimeout : PdfEnv :=
  ⟨⟨false, true, false, fun _ => .ok (), fun _ => .ok none, .ok (),
    fun _ => .error "timeout of 5000ms exceeded", fun _ => .ok .other⟩,
   fun _ => .ok []⟩

/-- A module-itself-callable module whose call throws with message
`runtime error`. -/
def pdfEnvRuntimeErr : PdfEnv :=
  ⟨⟨false, false, true, fun _ => .ok (), fun _ => .ok none, .ok (),
    fun _ => .ok .other, fun _ => .error "runtime error"⟩,
   fun _ => .ok []⟩

def sampleDocx : DocxEnv := ⟨fun _ => .ok "", fun _ => .ok ""⟩

def sampleTxt : TxtEnv := ⟨fun _ => "", fun _ => .ok ""⟩

def samplePptx : PptxEnv := ⟨fun _ => .ok ⟨none⟩, fun _ => .ok ⟨none⟩⟩

/-- A non-serverless OCR environment whose recognition succeeds. -/
def ocrEnvOk : OcrEnv :=
  ⟨none, none, some "dev", .ok (), fun _ => .ok "Invoice #1", .ok ()⟩

/-- A non-serverless OCR environment whose recognition throws with a
message containing both `wasm` and `timeout`. -/
def ocrEnvWasmTimeout : OcrEnv :=
  ⟨none, none, some "dev", .ok (), fun _ => .error "wasm timeout", .ok ()⟩

/-- A non-serverless OCR environment whose recognition throws with the
message `timeout exceeded`. -/
def ocrEnvTimeoutMsg : OcrEnv :=
  ⟨none, none, some "dev", .ok (), fun _ => .error "timeout exceeded", .ok ()⟩

/-- A non-serverless OCR environment whose recognition throws with the
message `wasm runtime error` (contains `time` but also `wasm`). -/
def ocrEnvWasmTime : OcrEnv :=
  ⟨none, none, some "dev", .ok (), fun _ => .error "wasm runtime error", .ok ()⟩

/-- A non-serverless OCR environment whose recognition throws with the
message `runtime error` (contains `time`, no wasm indicator). -/
def ocrEnvRuntimeErr : OcrEnv :=
  ⟨none, none, some "dev", .ok (), fun _ => .error "runtime error", .ok ()⟩

/-- A serverless OCR environment (`VERCEL` set). -/
def ocrEnvVercel : OcrEnv :=
  ⟨some "1", none, some "dev", .ok (), fun _ => .ok "text", .ok ()⟩

/-- An OCR environment whose only serverless indicator is an absent
`USER` variable. -/
def ocrEnvNoUser : OcrEnv :=
  ⟨none, none, none, .ok (), fun _ => .ok "text", .ok ()⟩

def sampleSys : Sys := ⟨pdfEnvNone, sampleDocx, sampleTxt, samplePptx, ocrEnvOk⟩

/-! ## Substring lemmas -/

theorem leadsWith_refl (l : List Char) : leadsWith l l = true := by
  induction l with
  | nil => rfl
  | cons a as ih => simp [leadsWith, ih]

theorem hasSub_self (pat : List Char) : hasSub pat pat = true := by
  cases pat with
  | nil => rfl
  | cons c rest => simp [hasSub, leadsWith_refl]

theorem hasSub_append (pre pat : List Char) : hasSub pat (pre ++ pat) = true := by
  induction pre with
  | nil => simpa using hasSub_self pat
  | cons c cs ih => simp [hasSub, ih]

theorem strContains_append_right (a b : String) : strContains (a ++ b) b = true := by
  unfold strContains
  have h : (a ++ b).toList = a.toList ++ b.toList := String.data_append a b
  rw [h]
  exact hasSub_append _ _

/-! ## Classifier lemmas -/

theorem classifyPdfError_timeout (msg : String)
    (h : strContains msg "timeout" = true ∨ strContains msg "time" = true) :
    classifyPdfError msg = pdfTimeoutPlaceholder := by
  unfold classifyPdfError
  rcases h with h | h <;> simp [h]

theorem classifyOcrError_timeout (msg : String)
    (hW : strContains msg "WebAssembly" = false)
    (hw : strContains msg "wasm" = false)
    (h : strContains msg "timeout" = true ∨ strContains msg "time" = true) :
    classifyOcrError msg = ocrTimeoutPlaceholder := by
  unfold classifyOcrError
  rcases h with h | h <;> simp [h, hW, hw]

/-! ## Adapter plumbing lemmas -/

theorem extractFromPDF_defaultCall_error (env : PdfEnv) (b : Bytes) (msg : String)
    (h0 : env.mod.hasPDFParseClass = false)
    (h1 : env.mod.hasDefaultFn = true)
    (hb : b.length ≤ 50 * 1024 * 1024)
    (hc : env.mod.defaultCall b = .error msg) :
    (extractFromPDF env (Input.buffer b)).1 = .ok (classifyPdfError msg) := by
  simp [extractFromPDF, h0, h1, hc, Nat.not_lt.mpr hb]

theorem extractFromPDF_modCall_error (env : PdfEnv) (b : Bytes) (msg : String)
    (h0 : env.mod.hasPDFParseClass = false)
    (h1 : env.mod.hasDefaultFn = false)
    (h2 : env.mod.modIsFunction = true)
    (hb : b.length ≤ 50 * 1024 * 1024)
    (hc : env.mod.modCall b = .error msg) :
    (extractFromPDF env (Input.buffer b)).1 = .ok (classifyPdfError msg) := by
  simp [extractFromPDF, h0, h1, h2, hc, Nat.not_lt.mpr hb]

theorem extractFromImage_recognize_error (e : OcrEnv) (input : Input) (msg : String)
    (hs : isServerless e = false)
    (hc : e.createWorker = .ok ())
    (hr : e.recognize input = .error msg) :
    (extractFromImage e input).1 = .ok (classifyOcrError msg) := by
  simp [extractFromImage, hs, hc, hr]

/-! ## Claim theorems -/

/-- Claim C1 (counterexample): with a `pdf-parse` module matching none of
the three capability shapes, `extractFromPDF` does not propagate a hard
failure: the call returns (`.ok`) the generic placeholder built from the
internally raised `Unsupported pdf-parse export shape` message. -/
theorem pdfNoShape_counterexample :
    extractFromPDF pdfEnvNone (Input.buffer []) =
      (Except.ok "[PDF uploaded - extraction failed: Unsupported pdf-parse export shape]", 0) := by
  rfl

/-- Claim C1 (amended): when the imported module matches none of the three
capability shapes, the adapter raises `Unsupported pdf-parse export shape`
internally, but its own catch classifies that error, so the caller
receives the generic placeholder as a normal return value — not a thrown
error — with zero invocations of the parsing capability. -/
theorem pdfNoShape_returnsGenericPlaceholder (env : PdfEnv) (b : Bytes)
    (h0 : env.mod.hasPDFParseClass = false)
    (h1 : env.mod.hasDefaultFn = false)
    (h2 : env.mod.modIsFunction = false)
    (hb : b.length ≤ 50 * 1024 * 1024) :
    extractFromPDF env (Input.buffer b) =
      (Except.ok "[PDF uploaded - extraction failed: Unsupported pdf-parse export shape]", 0) := by
  have hcl : classifyPdfError "Unsupported pdf-parse export shape" =
      "[PDF uploaded - extraction failed: Unsupported pdf-parse export shape]" := by rfl
  simp [extractFromPDF, h0, h1, h2, Nat.not_lt.mpr hb, hcl]

/-- Witness for the amended C1 at a concrete environment and buffer. -/
theorem pdfNoShape_returnsGenericPlaceholder_witness :
    extractFromPDF pdfEnvNone (Input.buffer [0]) =
      (Except.ok "[PDF uploaded - extraction failed: Unsupported pdf-parse export shape]", 0) :=
  pdfNoShape_returnsGenericPlaceholder pdfEnvNone [0] rfl rfl rfl (by decide)

/-- Claim C2 (counterexample): classification is case-sensitive, not
case-insensitive: a PDF failure whose message is `TIMEOUT` (uppercase)
falls through to the generic category, and an OCR failure whose message
contains both `wasm` and `timeout` is classified into the WebAssembly
category, not the timeout category. -/
theorem classifyCaseInsensitive_counterexample :
    (extractFromPDF pdfEnvUpperTimeout (Input.buffer [])).1 =
      Except.ok "[PDF uploaded - extraction failed: TIMEOUT]" ∧
    "[PDF uploaded - extraction failed: TIMEOUT]" ≠ pdfTimeoutPlaceholder ∧
    (extractFromImage ocrEnvWasmTimeout (Input.buffer [])).1 =
      Except.ok ocrWasmPlaceholder ∧
    ocrWasmPlaceholder ≠ ocrTimeoutPlaceholder :=
  ⟨rfl, by decide, rfl, by decide⟩

/-- Claim C2 (amended): PDF and OCR failure messages are classified by
case-sensitive substring match and the resulting placeholder is returned,
never thrown; a message containing lowercase `timeout` yields the timeout
placeholder — unconditionally for PDF, and for OCR whenever the message
contains neither `WebAssembly` nor `wasm` (which are checked first). -/
theorem classifyTimeout_caseSensitive :
    (∀ (env : PdfEnv) (b : Bytes) (msg : String),
        env.mod.hasPDFParseClass = false → env.mod.hasDefaultFn = true →
        b.length ≤ 50 * 1024 * 1024 →
        env.mod.defaultCall b = .error msg →
        strContains msg "timeout" = true →
        (extractFromPDF env (Input.buffer b)).1 = .ok pdfTimeoutPlaceholder) ∧
    (∀ (e : OcrEnv) (input : Input) (msg : String),
        isServerless e = false → e.createWorker = .ok () →
        e.recognize input = .error msg →
        strContains msg "timeout" = true →
        strContains msg "WebAssembly" = false →
        strContains msg "wasm" = false →
        (extractFromImage e input).1 = .ok ocrTimeoutPlaceholder) := by
  constructor
  · intro env b msg h0 h1 hb hc ht
    rw [extractFromPDF_defaultCall_error env b msg h0 h1 hb hc,
        classifyPdfError_timeout msg (Or.inl ht)]
  · intro e input msg hs hc hr ht hW hw
    rw [extractFromImage_recognize_error e input msg hs hc hr,
        classifyOcrError_timeout msg hW hw (Or.inl ht)]

/-- Witness for the amended C2 at concrete environments whose underlying
calls throw with messages containing lowercase `timeout`. -/
theorem classifyTimeout_caseSensitive_witness :
    (extractFromPDF pdfEnvLowerTimeout (Input.buffer [])).1 = .ok pdfTimeoutPlaceholder ∧
    (extractFromImage ocrEnvTimeoutMsg (Input.buffer [])).1 = .ok ocrTimeoutPlaceholder :=
  ⟨classifyTimeout_caseSensitive.1 pdfEnvLowerTimeout [] "timeout of 5000ms exceeded"
      rfl rfl (by decide) rfl (by decide),
   classifyTimeout_caseSensitive.2 ocrEnvTimeoutMsg (Input.buffer []) "timeout exceeded"
      rfl rfl rfl (by decide) (by decide) (by decide)⟩

/-- Claim C3: a PDF buffer strictly larger than 50 MB makes
`extractFromPDF` return the large-PDF placeholder immediately, with zero
invocations of the `pdf-parse` capability. -/
theorem pdfSizeGuard (env : PdfEnv) (b : Bytes)
    (h : 50 * 1024 * 1024 < b.length) :
    extractFromPDF env (Input.buffer b) = (.ok pdfLargePlaceholder, 0) := by
  simp [extractFromPDF, h]

/-- Witness for C3 at a concrete buffer of `50 MB + 1` bytes. -/
theorem pdfSizeGuard_witness :
    50 * 1024 * 1024 < (List.replicate (50 * 1024 * 1024 + 1) 0 : Bytes).length ∧
    extractFromPDF pdfEnvNone (Input.buffer (List.replicate (50 * 1024 * 1024 + 1) 0)) =
      (.ok pdfLargePlaceholder, 0) := by
  have h : 50 * 1024 * 1024 < (List.replicate (50 * 1024 * 1024 + 1) (0 : Nat)).length := by
    rw [List.length_replicate]
    omega
  exact ⟨h, pdfSizeGuard pdfEnvNone _ h⟩

/-- Claim C4: whenever the OCR worker is successfully created (the probe
did not short-circuit and creation itself did not throw), exactly one
worker is created and its terminate operation is invoked exactly once
before the call returns, for every recognition outcome — success, empty
text, or a thrown error. -/
theorem ocrWorkerTerminatedOnce (e : OcrEnv) (input : Input)
    (hs : isServerless e = false) (hc : e.createWorker = .ok ()) :
    (extractFromImage e input).2 = (1, 1) := by
  simp [extractFromImage, hs, hc]
  cases e.recognize input <;> simp

/-- Witness for C4 at a concrete environment with successful recognition. -/
theorem ocrWorkerTerminatedOnce_witness :
    (extractFromImage ocrEnvOk (Input.buffer [])).2 = (1, 1) :=
  ocrWorkerTerminatedOnce ocrEnvOk (Input.buffer []) rfl rfl

/-- Claim C5: an unrecognized MIME type makes `extractTextFromFile` throw,
and the thrown message contains the substring
`Unsupported MIME type: <mime>` — in particular the exact offending MIME
string. -/
theorem unsupportedMimeThrows (sys : Sys) (input : Input) (mimeType : String)
    (h : mimeType ∉ recognizedMimes) :
    extractTextFromFile sys input mimeType =
      .error ("Failed to extract text: " ++ ("Unsupported MIME type: " ++ mimeType)) ∧
    strContains ("Failed to extract text: " ++ ("Unsupported MIME type: " ++ mimeType))
      ("Unsupported MIME type: " ++ mimeType) = true := by
  simp [recognizedMimes] at h
  obtain ⟨h1, h2, h3, h4, h5, h6, h7, h8⟩ := h
  refine ⟨?_, strContains_append_right _ _⟩
  simp [extractTextFromFile, dispatchInner, h1, h2, h3, h4, h5, h6, h7, h8]

/-- Witness for C5 at the MIME type `application/zip`. -/
theorem unsupportedMimeThrows_witness :
    extractTextFromFile sampleSys (Input.buffer []) "application/zip" =
      .error ("Failed to extract text: " ++ ("Unsupported MIME type: " ++ "application/zip")) ∧
    strContains ("Failed to extract text: " ++ ("Unsupported MIME type: " ++ "application/zip"))
      ("Unsupported MIME type: " ++ "application/zip") = true :=
  unsupportedMimeThrows sampleSys (Input.buffer []) "application/zip" (by decide)

/-- Claim C6: PPTX buffer input always returns exactly the fixed
placeholder string, independent of the buffer's content, with zero
invocations of the `pptx2json` parsing capability. -/
theorem pptxBufferPlaceholder (e : PptxEnv) (b : Bytes) :
    extractFromPPTX e (Input.buffer b) =
      (.ok "[PPTX file uploaded - processing not available in serverless environment]", 0) :=
  rfl

/-- Claim C7: when the environment probe judges the context serverless,
`extractFromImage` returns the OCR-unavailable placeholder with zero
workers created (and zero terminations). -/
theorem ocrServerlessNoWorker (e : OcrEnv) (input : Input)
    (h : isServerless e = true) :
    extractFromImage e input = (.ok ocrUnavailablePlaceholder, 0, 0) := by
  simp [extractFromImage, h]

/-- Witness for C7 at an environment with `VERCEL` set. -/
theorem ocrServerlessNoWorker_witness :
    extractFromImage ocrEnvVercel (Input.buffer []) =
      (.ok ocrUnavailablePlaceholder, 0, 0) :=
  ocrServerlessNoWorker ocrEnvVercel (Input.buffer []) rfl

/-- Claim C8: whenever the dispatch body throws — an adapter failure or
the dispatcher's own unsupported-MIME error — `extractTextFromFile`
rethrows an error whose message is exactly `Failed to extract text: `
followed by the inner message. -/
theorem dispatchErrorWrapped (sys : Sys) (input : Input) (mimeType m : String)
    (h : dispatchInner sys input mimeType = .error m) :
    extractTextFromFile sys input mimeType =
      .error ("Failed to extract text: " ++ m) := by
  simp [extractTextFromFile, h]

/-- Witness for C8 at the dispatcher's own unsupported-MIME error. -/
theorem dispatchErrorWrapped_witness :
    extractTextFromFile sampleSys (Input.buffer []) "application/zip" =
      .error ("Failed to extract text: " ++ "Unsupported MIME type: application/zip") :=
  dispatchErrorWrapped sampleSys (Input.buffer []) "application/zip"
    "Unsupported MIME type: application/zip" rfl

/-- Claim C9: an absent `USER` environment variable alone makes the probe
judge the context serverless, so every image extraction on such a system
returns the OCR-unavailable placeholder with zero workers created. -/
theorem noUserMeansServerless (e : OcrEnv) (input : Input)
    (h : e.user = none) :
    isServerless e = true ∧
    extractFromImage e input = (.ok ocrUnavailablePlaceholder, 0, 0) := by
  have hs : isServerless e = true := by
    simp [isServerless, envTruthy, h]
  exact ⟨hs, by simp [extractFromImage, hs]⟩

/-- Witness for C9 at an environment whose only serverless indicator is
the absent `USER` variable. -/
theorem noUserMeansServerless_witness :
    isServerless ocrEnvNoUser = true ∧
    extractFromImage ocrEnvNoUser (Input.buffer []) =
      (.ok ocrUnavailablePlaceholder, 0, 0) :=
  noUserMeansServerless ocrEnvNoUser (Input.buffer []) rfl

/-- Claim C10 (counterexample): the OCR failure message
`wasm runtime error` contains `time`, yet the WebAssembly check runs
first, so the wasm placeholder is returned instead of the timeout one. -/
theorem timeSubstring_counterexample :
    strContains "wasm runtime error" "time" = true ∧
    (extractFromImage ocrEnvWasmTime (Input.buffer [])).1 = .ok ocrWasmPlaceholder ∧
    ocrWasmPlaceholder ≠ ocrTimeoutPlaceholder :=
  ⟨by decide, rfl, by decide⟩

/-- Claim C10 (amended): the timeout classification matches the substring
`time` as well as `timeout`: every PDF failure whose message contains
`time` (e.g. `runtime error`) yields the timeout placeholder rather than
the generic one, and so does every OCR failure whose message contains
`time` and contains neither `WebAssembly` nor `wasm` (checked first). -/
theorem timeSubstringTimeout :
    (∀ (env : PdfEnv) (b : Bytes) (msg : String),
        env.mod.hasPDFParseClass = false → env.mod.hasDefaultFn = false →
        env.mod.modIsFunction = true →
        b.length ≤ 50 * 1024 * 1024 →
        env.mod.modCall b = .error msg →
        strContains msg "time" = true →
        (extractFromPDF env (Input.buffer b)).1 = .ok pdfTimeoutPlaceholder) ∧
    (∀ (e : OcrEnv) (input : Input) (msg : String),
        isServerless e = false → e.createWorker = .ok () →
        e.recognize input = .error msg →
        strContains msg "time" = true →
        strContains msg "WebAssembly" = false →
        strContains msg "wasm" = false →
        (extractFromImage e input).1 = .ok ocrTimeoutPlaceholder) := by
  constructor
  · intro env b msg h0 h1 h2 hb hc ht
    rw [extractFromPDF_modCall_error env b msg h0 h1 h2 hb hc,
        classifyPdfError_timeout msg (Or.inr ht)]
  · intro e input msg hs hc hr ht hW hw
    rw [extractFromImage_recognize_error e input msg hs hc hr,
        classifyOcrError_timeout msg hW hw (Or.inr ht)]

/-- Witness for the amended C10 at environments whose underlying calls
throw with the message `runtime error`. -/
theorem timeSubstringTimeout_witness :
    (extractFromPDF pdfEnvRuntimeErr (Input.buffer [])).1 = .ok pdfTimeoutPlaceholder ∧
    (extractFromImage ocrEnvRuntimeErr (Input.buffer [])).1 = .ok ocrTimeoutPlaceholder :=
  ⟨timeSubstringTimeout.1 pdfEnvRuntimeErr [] "runtime error"
      rfl rfl rfl (by decide) rfl (by decide),
   timeSubstringTimeout.2 ocrEnvRuntimeErr (Input.buffer []) "runtime error"
      rfl rfl rfl (by decide) (by decide) (by decide)⟩
